import Mathlib

/-!
Verification development for the block-storage wire-format codec layer
(`src/block_storage/protocol.rs`): a shallow embedding of the JSON data
model, the flexible `DateTime` codec built on chrono's `parse_from_rfc3339`,
`NaiveDateTime::parse_from_str` with the fixed format
`%Y-%m-%dT%H:%M:%S.%f`, and `to_rfc3339`, the enum codecs generated by
`protocol_enum!`, the `bool_from_bootable_string` helper, the derived
`Deserialize` for `Volume`, and the derived `Serialize` for `VolumeCreate`.
-/

namespace BlockStorage

/-! ## JSON values

A first-order model of `serde_json` values.  Arrays and objects use their
own list types so that all decoding functions are structurally recursive.
Object fields keep the textual order of the document. -/

mutual

inductive Json where
  | null : Json
  | bool (b : Bool) : Json
  | num (n : Int) : Json
  | str (s : String) : Json
  | arr (xs : JsonList) : Json
  | obj (fs : JsonFields) : Json

inductive JsonList where
  | nil : JsonList
  | cons (hd : Json) (tl : JsonList) : JsonList

inductive JsonFields where
  | nil : JsonFields
  | cons (k : String) (v : Json) (tl : JsonFields) : JsonFields

end

/-- Conversion helper: build a `JsonList` from a Lean list. -/
def jlist : List Json → JsonList
  | [] => .nil
  | x :: xs => .cons x (jlist xs)

/-- Conversion helper: build `JsonFields` from a Lean association list. -/
def jfields : List (String × Json) → JsonFields
  | [] => .nil
  | (k, v) :: xs => .cons k v (jfields xs)

/-- Build a JSON object from a Lean association list. -/
def jobj (l : List (String × Json)) : Json := .obj (jfields l)

/-- Build a JSON array from a Lean list. -/
def jarr (l : List Json) : Json := .arr (jlist l)

/-- First binding of a key in an object, as `serde_json`'s map lookup. -/
def JsonFields.find (k : String) : JsonFields → Option Json
  | .nil => none
  | .cons k' v tl => if k = k' then some v else JsonFields.find k tl

/-- Whether a key occurs in an object. -/
def JsonFields.hasKey (k : String) (fs : JsonFields) : Bool :=
  (fs.find k).isSome

/-! ## Calendar timestamps

`chrono::NaiveDateTime` observed through its calendar fields, and
`chrono::DateTime<FixedOffset>` as a local calendar timestamp plus a fixed
UTC offset in seconds (chrono's `naive_local()` view, which is what both
`to_rfc3339` and the `%Y-%m-%dT%H:%M:%S.%f` formatter consume). -/

structure NaiveDT where
  year : Nat
  month : Nat
  day : Nat
  hour : Nat
  minute : Nat
  second : Nat
  nanos : Nat
deriving DecidableEq

structure DateTimeFO where
  naiveLocal : NaiveDT
  offsetSecs : Int
deriving DecidableEq

/-- The `DateTime` enum of `protocol.rs`: either an offset-aware or an
offset-naive timestamp. -/
inductive DateTime where
  | WithTz (dt : DateTimeFO)
  | WithoutTz (dt : NaiveDT)
deriving DecidableEq

/-! ## Scanner primitives

Models of chrono's `scan` helpers over a character list. -/

/-- Numeric value of a decimal digit character. -/
def digit? (c : Char) : Option Nat :=
  if c.isDigit then some (c.toNat - 48) else none

/-- Consume exactly `n` decimal digits, accumulating their value
(chrono `scan::number(s, n, n)`). -/
def parseFixedDigits (acc : Nat) : Nat → List Char → Option (Nat × List Char)
  | 0, cs => some (acc, cs)
  | _ + 1, [] => none
  | n + 1, c :: cs =>
    match digit? c with
    | some d => parseFixedDigits (acc * 10 + d) n cs
    | none => none

/-- Greedily consume up to `n` decimal digits; returns the value, the
number of digits consumed, and the rest. -/
def takeDigitsUpTo (acc cnt : Nat) : Nat → List Char → Nat × Nat × List Char
  | 0, cs => (acc, cnt, cs)
  | _ + 1, [] => (acc, cnt, [])
  | n + 1, c :: cs =>
    match digit? c with
    | some d => takeDigitsUpTo (acc * 10 + d) (cnt + 1) n cs
    | none => (acc, cnt, c :: cs)

/-- Consume between 1 and `maxW` digits, greedily, as chrono's numeric
format items do when parsing (`scan::number(s, 1, maxW)`). -/
def parseFlexNum (maxW : Nat) (cs : List Char) : Option (Nat × List Char) :=
  match takeDigitsUpTo 0 0 maxW cs with
  | (_, 0, _) => none
  | (v, _ + 1, rest) => some (v, rest)

/-- Consume a decimal fraction of a second after the dot, as chrono's
`scan::nanosecond`: at least one digit, the first nine digits are scaled to
nanoseconds, any further digits are consumed and discarded. -/
def parseFraction (cs : List Char) : Option (Nat × List Char) :=
  match takeDigitsUpTo 0 0 9 cs with
  | (_, 0, _) => none
  | (v, cnt + 1, rest) =>
    some (v * 10 ^ (9 - (cnt + 1)), rest.dropWhile Char.isDigit)

/-- Consume one expected literal character. -/
def expectChar (c : Char) : List Char → Option (List Char)
  | [] => none
  | x :: xs => if x = c then some xs else none

/-- Gregorian leap-year test. -/
def isLeapYear (y : Nat) : Bool :=
  y % 4 = 0 && (y % 100 ≠ 0 || y % 400 = 0)

/-- Days in a month of the proleptic Gregorian calendar. -/
def daysInMonth (y m : Nat) : Nat :=
  match m with
  | 1 => 31 | 2 => if isLeapYear y then 29 else 28 | 3 => 31
  | 4 => 30 | 5 => 31 | 6 => 30 | 7 => 31 | 8 => 31
  | 9 => 30 | 10 => 31 | 11 => 30 | 12 => 31
  | _ => 0

/-- Calendar validity of a year-month-day triple. -/
def validDate (y m d : Nat) : Bool :=
  1 ≤ m && m ≤ 12 && 1 ≤ d && d ≤ daysInMonth y m

/-- Validity of a time-of-day triple (leap-second inputs, which chrono
folds into the nanosecond field, are outside the modelled input space). -/
def validTime (h mi s : Nat) : Bool :=
  h ≤ 23 && mi ≤ 59 && s ≤ 59

/-- RFC-3339 timezone suffix: `Z`/`z`, or a sign with two-digit hours, a
colon, and two-digit minutes; chrono's scanner rejects a minute field of
60 or more, and materialises the offset through `FixedOffset::east_opt`,
which requires the magnitude to stay below one day in seconds. -/
def parseOffset : List Char → Option (Int × List Char)
  | 'Z' :: cs => some (0, cs)
  | 'z' :: cs => some (0, cs)
  | '+' :: cs => do
    let (hh, cs) ← parseFixedDigits 0 2 cs
    let cs ← expectChar ':' cs
    let (mm, cs) ← parseFixedDigits 0 2 cs
    let secs := hh * 3600 + mm * 60
    if mm ≤ 59 ∧ secs < 86400 then some ((secs : Int), cs) else none
  | '-' :: cs => do
    let (hh, cs) ← parseFixedDigits 0 2 cs
    let cs ← expectChar ':' cs
    let (mm, cs) ← parseFixedDigits 0 2 cs
    let secs := hh * 3600 + mm * 60
    if mm ≤ 59 ∧ secs < 86400 then some (-(secs : Int), cs) else none
  | _ => none

/-- The date-time separator accepted by chrono's RFC-3339 scanner. -/
def parseSep : List Char → Option (List Char)
  | c :: cs => if c = 'T' ∨ c = 't' ∨ c = ' ' then some cs else none
  | [] => none

/-- Model of `chrono::DateTime::parse_from_rfc3339`: fixed-width date and
time fields, optional decimal fraction, mandatory offset, full input
consumption, then calendar validation. -/
def parseRfc3339 (s : String) : Option DateTimeFO := do
  let (y, cs) ← parseFixedDigits 0 4 s.data
  let cs ← expectChar '-' cs
  let (mo, cs) ← parseFixedDigits 0 2 cs
  let cs ← expectChar '-' cs
  let (d, cs) ← parseFixedDigits 0 2 cs
  let cs ← parseSep cs
  let (h, cs) ← parseFixedDigits 0 2 cs
  let cs ← expectChar ':' cs
  let (mi, cs) ← parseFixedDigits 0 2 cs
  let cs ← expectChar ':' cs
  let (sec, cs) ← parseFixedDigits 0 2 cs
  let (ns, cs) ←
    match cs with
    | '.' :: rest => parseFraction rest
    | _ => some (0, cs)
  let (off, cs) ← parseOffset cs
  match cs with
  | [] =>
    if validDate y mo d && validTime h mi sec then
      some ⟨⟨y, mo, d, h, mi, sec, ns⟩, off⟩
    else none
  | _ => none

/-- Model of `chrono::NaiveDateTime::parse_from_str` with the fixed format
string `%Y-%m-%dT%H:%M:%S.%f`.  Numeric items consume 1 up to their width
in digits; `%f` is chrono's `Numeric::Nanosecond` item, which reads 1 to 9
digits and takes their value as a literal count of nanoseconds (not as a
decimal fraction).  The whole input must be consumed.  Signed years and
chrono's leading-whitespace tolerance before numeric items are outside the
modelled input space. -/
def parseNaive (s : String) : Option NaiveDT := do
  let (y, cs) ← parseFlexNum 4 s.data
  let cs ← expectChar '-' cs
  let (mo, cs) ← parseFlexNum 2 cs
  let cs ← expectChar '-' cs
  let (d, cs) ← parseFlexNum 2 cs
  let cs ← expectChar 'T' cs
  let (h, cs) ← parseFlexNum 2 cs
  let cs ← expectChar ':' cs
  let (mi, cs) ← parseFlexNum 2 cs
  let cs ← expectChar ':' cs
  let (sec, cs) ← parseFlexNum 2 cs
  let cs ← expectChar '.' cs
  let (ns, cs) ← parseFlexNum 9 cs
  match cs with
  | [] =>
    if validDate y mo d && validTime h mi sec then
      some ⟨y, mo, d, h, mi, sec, ns⟩
    else none
  | _ => none

/-- Zero-pad a natural number to a given width. -/
def pad (w n : Nat) : String :=
  let s := toString n
  String.mk (List.replicate (w - s.length) '0') ++ s

/-- Model of formatting a `NaiveDateTime` with `%Y-%m-%dT%H:%M:%S.%f`:
`%f` always prints the nanosecond count zero-padded to nine digits. -/
def formatNaive (d : NaiveDT) : String :=
  pad 4 d.year ++ "-" ++ pad 2 d.month ++ "-" ++ pad 2 d.day ++ "T" ++
    pad 2 d.hour ++ ":" ++ pad 2 d.minute ++ ":" ++ pad 2 d.second ++
    "." ++ pad 9 d.nanos

/-- Model of `chrono::DateTime::to_rfc3339`: local calendar fields, a
sub-second part with 0, 3, 6 or 9 digits (`SecondsFormat::AutoSi`), and
the stored offset rendered as `±HH:MM` (zero offset prints `+00:00`). -/
def toRfc3339 (dt : DateTimeFO) : String :=
  let d := dt.naiveLocal
  let frac :=
    if d.nanos = 0 then ""
    else if d.nanos % 1000000 = 0 then "." ++ pad 3 (d.nanos / 1000000)
    else if d.nanos % 1000 = 0 then "." ++ pad 6 (d.nanos / 1000)
    else "." ++ pad 9 d.nanos
  let a := dt.offsetSecs.natAbs
  let sign := if dt.offsetSecs < 0 then "-" else "+"
  pad 4 d.year ++ "-" ++ pad 2 d.month ++ "-" ++ pad 2 d.day ++ "T" ++
    pad 2 d.hour ++ ":" ++ pad 2 d.minute ++ ":" ++ pad 2 d.second ++
    frac ++ sign ++ pad 2 (a / 3600) ++ ":" ++ pad 2 (a % 3600 / 60)

/-- The string-level decode of `impl Deserialize for DateTime`: try
RFC-3339 first, then the fixed naive pattern, else fail with the fixed
message `invalid date format`. -/
def dateTimeDecodeStr (s : String) : Except String DateTime :=
  match parseRfc3339 s with
  | some dt => .ok (.WithTz dt)
  | none =>
    match parseNaive s with
    | some d => .ok (.WithoutTz d)
    | none => .error "invalid date format"

/-- The encode of `impl Serialize for DateTime`. -/
def encodeDateTime : DateTime → String
  | .WithTz dt => toRfc3339 dt
  | .WithoutTz d => formatNaive d

example : parseNaive "2024-01-15T10:30:00.123456" =
    some ⟨2024, 1, 15, 10, 30, 0, 123456⟩ := by decide

example : parseRfc3339 "2024-01-15T10:30:00+02:00" =
    some ⟨⟨2024, 1, 15, 10, 30, 0, 0⟩, 7200⟩ := by decide

example : encodeDateTime (.WithoutTz ⟨2024, 1, 15, 10, 30, 0, 123456⟩) =
    "2024-01-15T10:30:00.000123456" := by decide

example : toRfc3339 ⟨⟨2024, 1, 15, 10, 30, 0, 0⟩, 7200⟩ =
    "2024-01-15T10:30:00+02:00" := by decide

/-! ## Enum codecs

The two `protocol_enum!` invocations of `protocol.rs`.  The variant/wire
tables below are copied from the source; the codec functions around them
are modelled from the spec: the `protocol_enum!` macro itself lives
elsewhere in the repository, and §4.1 of the spec describes its expansion
as an exact, closed, bidirectional string/variant mapping whose decode
fails on unknown strings with an error naming the rejected string and the
valid set. -/

inductive VolumeStatus where
  | Creating | Available | Reserved | Attaching | Detaching
  | InUse | Maintenance | Deleting | AwaitingTransfer | Error
  | ErrorDeleting | BackingUp | RestoringBackup | ErrorBackingUp
  | ErrorRestoring | ErrorExtending | Downloading | Uploading
  | Retyping | Extending
deriving DecidableEq

inductive VolumeSortKey where
  | CreatedAt | Id | Name | UpdatedAt
deriving DecidableEq

/-- Generic exact lookup in a wire table. -/
def tableFind {α : Type} (s : String) : List (String × α) → Option α
  | [] => none
  | (k, v) :: t => if s = k then some v else tableFind s t

/-- Wire table of `VolumeStatus`, from `protocol.rs` lines 22-46. -/
def volumeStatusTable : List (String × VolumeStatus) :=
  [("creating", .Creating), ("available", .Available),
   ("reserved", .Reserved), ("attaching", .Attaching),
   ("detaching", .Detaching), ("in-use", .InUse),
   ("maintenance", .Maintenance), ("deleting", .Deleting),
   ("awaiting-transfer", .AwaitingTransfer), ("error", .Error),
   ("error_deleting", .ErrorDeleting), ("backing-up", .BackingUp),
   ("restoring-backup", .RestoringBackup),
   ("error_backing-up", .ErrorBackingUp),
   ("error_restoring", .ErrorRestoring),
   ("error_extending", .ErrorExtending), ("downloading", .Downloading),
   ("uploading", .Uploading), ("retyping", .Retyping),
   ("extending", .Extending)]

/-- Modelled from the spec: encode side of the enum codec generated by
`protocol_enum!` for `VolumeStatus` — total, returns the fixed wire
string of the variant. -/
def volumeStatusEncode : VolumeStatus → String
  | .Creating => "creating" | .Available => "available"
  | .Reserved => "reserved" | .Attaching => "attaching"
  | .Detaching => "detaching" | .InUse => "in-use"
  | .Maintenance => "maintenance" | .Deleting => "deleting"
  | .AwaitingTransfer => "awaiting-transfer" | .Error => "error"
  | .ErrorDeleting => "error_deleting" | .BackingUp => "backing-up"
  | .RestoringBackup => "restoring-backup"
  | .ErrorBackingUp => "error_backing-up"
  | .ErrorRestoring => "error_restoring"
  | .ErrorExtending => "error_extending" | .Downloading => "downloading"
  | .Uploading => "uploading" | .Retyping => "retyping"
  | .Extending => "extending"

/-- Modelled from the spec: decode side of the enum codec generated by
`protocol_enum!` for `VolumeStatus` — exact match against the closed wire
set, unknown strings fail with an error carrying the rejected string and
referencing the valid set. -/
def volumeStatusDecode (s : String) : Except String VolumeStatus :=
  match tableFind s volumeStatusTable with
  | some v => .ok v
  | none =>
    .error ("unexpected value " ++ s ++ ", expected one of " ++
      String.intercalate ", " (volumeStatusTable.map Prod.fst))

/-- Wire table of `VolumeSortKey`, from `protocol.rs` lines 48-56. -/
def volumeSortKeyTable : List (String × VolumeSortKey) :=
  [("created_at", .CreatedAt), ("id", .Id), ("name", .Name),
   ("updated_at", .UpdatedAt)]

/-- Modelled from the spec: encode side of the enum codec generated by
`protocol_enum!` for `VolumeSortKey`. -/
def volumeSortKeyEncode : VolumeSortKey → String
  | .CreatedAt => "created_at" | .Id => "id" | .Name => "name"
  | .UpdatedAt => "updated_at"

/-- Modelled from the spec: decode side of the enum codec generated by
`protocol_enum!` for `VolumeSortKey`. -/
def volumeSortKeyDecode (s : String) : Except String VolumeSortKey :=
  match tableFind s volumeSortKeyTable with
  | some v => .ok v
  | none =>
    .error ("unexpected value " ++ s ++ ", expected one of " ++
      String.intercalate ", " (volumeSortKeyTable.map Prod.fst))

/-- The `impl Default for VolumeSortKey` of `protocol.rs`. -/
def VolumeSortKey.default : VolumeSortKey := .CreatedAt

/-! ## Primitive JSON decoders

Models of the `serde_json` deserializers used by the derived
`Deserialize` impls. -/

/-- Decode a JSON string. -/
def asString : Json → Except String String
  | .str s => .ok s
  | _ => .error "invalid type: expected a string"

/-- Decode a native JSON boolean. -/
def asBool : Json → Except String Bool
  | .bool b => .ok b
  | _ => .error "invalid type: expected a boolean"

/-- Decode a `u64` from a JSON number. -/
def asU64 : Json → Except String Nat
  | .num n =>
    if 0 ≤ n ∧ n < 18446744073709551616 then .ok n.toNat
    else .error "invalid value: out of range for u64"
  | _ => .error "invalid type: expected an integer"

/-- Decode the entries of a string-to-string map, in document order. -/
def fieldsToStringMap : JsonFields → Except String (List (String × String))
  | .nil => .ok []
  | .cons k v tl => do
    let s ← asString v
    let rest ← fieldsToStringMap tl
    .ok ((k, s) :: rest)

/-- Decode a `HashMap<String, String>`, kept as an association list in
document order (the spec declares insertion order irrelevant). -/
def asStringMap : Json → Except String (List (String × String))
  | .obj fs => fieldsToStringMap fs
  | _ => .error "invalid type: expected a map"

/-- Decode each element of a JSON array with a fixed element decoder. -/
def decodeJsonListWith {α : Type} (dec : Json → Except String α) :
    JsonList → Except String (List α)
  | .nil => .ok []
  | .cons x xs => do
    let a ← dec x
    let rest ← decodeJsonListWith dec xs
    .ok (a :: rest)

/-- Decode a `Vec<T>` from a JSON array. -/
def asList {α : Type} (dec : Json → Except String α) :
    Json → Except String (List α)
  | .arr xs => decodeJsonListWith dec xs
  | _ => .error "invalid type: expected a sequence"

/-- Decode a required struct field: derived `Deserialize` fails with
`missing field` when the key is absent; otherwise the field decoder runs
on the value and its error propagates. -/
def reqField {α : Type} (dec : Json → Except String α) (k : String)
    (fs : JsonFields) : Except String α :=
  match fs.find k with
  | none => .error ("missing field `" ++ k ++ "`")
  | some v => dec v

/-- Decode an `Option<T>` struct field: an absent key and an explicit
`null` both give `None`; any other value decodes with `T`'s decoder. -/
def optField {α : Type} (dec : Json → Except String α) (k : String)
    (fs : JsonFields) : Except String (Option α) :=
  match fs.find k with
  | none => .ok none
  | some .null => .ok none
  | some v => (dec v).map some

/-- The `bool_from_bootable_string` helper of `protocol.rs`: deserialize
a string, accept exactly the literals `true` and `false`, and reject
anything else with serde's `invalid_value` error carrying the offending
literal. -/
def bool_from_bootable_string (j : Json) : Except String Bool := do
  let s ← asString j
  match s with
  | "true" => .ok true
  | "false" => .ok false
  | other =>
    .error ("invalid value: string \"" ++ other ++
      "\", expected true or false")

/-- Decode a `DateTime` field: `String::deserialize` then the two-grammar
cascade. -/
def dateTimeDecodeJson (j : Json) : Except String DateTime := do
  let s ← asString j
  dateTimeDecodeStr s

/-- Decode a `VolumeStatus` field. -/
def volumeStatusDecodeJson (j : Json) : Except String VolumeStatus := do
  let s ← asString j
  volumeStatusDecode s

/-! ## Volume resource model -/

/-- The `VolumeAttachment` struct of `protocol.rs`, fields in declaration
order. -/
structure VolumeAttachment where
  server_id : String
  attachment_id : String
  attached_at : String
  host_name : Option String
  volume_id : String
  device : String
  id : String
deriving DecidableEq

/-- The `Link` struct of `protocol.rs`. -/
structure Link where
  rel : String
  href : String
deriving DecidableEq

/-- Derived `Deserialize` for `VolumeAttachment`, with fields resolved by
key lookup. -/
def decodeVolumeAttachment : Json → Except String VolumeAttachment
  | .obj fs => do
    let server_id ← reqField asString "server_id" fs
    let attachment_id ← reqField asString "attachment_id" fs
    let attached_at ← reqField asString "attached_at" fs
    let host_name ← optField asString "host_name" fs
    let volume_id ← reqField asString "volume_id" fs
    let device ← reqField asString "device" fs
    let id ← reqField asString "id" fs
    .ok ⟨server_id, attachment_id, attached_at, host_name, volume_id,
      device, id⟩
  | _ => .error "invalid type: expected struct VolumeAttachment"

/-- Derived `Deserialize` for `Link`. -/
def decodeLink : Json → Except String Link
  | .obj fs => do
    let rel ← reqField asString "rel" fs
    let href ← reqField asString "href" fs
    .ok ⟨rel, href⟩
  | _ => .error "invalid type: expected struct Link"

/-- The `Volume` struct of `protocol.rs`, fields in declaration order.
It is self-referential through the optional `volumes` list, so it is
declared as a recursive inductive with named constructor arguments. -/
inductive Volume where
  | mk
    (migration_status : Option String)
    (attachments : List VolumeAttachment)
    (links : List Link)
    (availability_zone : Option String)
    (host : Option String)
    (encrypted : Bool)
    (encryption_key_id : Option String)
    (updated_at : Option DateTime)
    (replication_status : Option String)
    (snapshot_id : Option String)
    (id : String)
    (size : Nat)
    (user_id : String)
    (tenant_id : Option String)
    (metadata : List (String × String))
    (status : VolumeStatus)
    (image_metadata : Option (List (String × String)))
    (description : Option String)
    (multi_attachable : Bool)
    (source_volume_id : Option String)
    (consistency_group_id : Option String)
    (name_id : Option String)
    (name : String)
    (bootable : Bool)
    (created_at : DateTime)
    (volumes : Option (List Volume))
    (volume_type : String)
    (volume_type_id : Option (List (String × String)))
    (group_id : Option String)
    (volumes_links : Option (List String))
    (provider_id : Option String)
    (service_id : Option String)
    (shared_targets : Option Bool)
    (cluster_name : Option String)
    (consumes_quota : Option Bool)
    (count : Option Nat) : Volume

mutual

/-- Derived `Deserialize` for `Volume`: each field is resolved by key
lookup with the serde rename table applied, required fields fail with
`missing field` when absent, `Option` fields default to `None`, the
`bootable` field goes through `bool_from_bootable_string`, and the
embedded `volumes` list decodes recursively.  Any field error fails the
whole decode.  Unknown keys are ignored, as in the derived impl (no
`deny_unknown_fields`); documents with a duplicated key, on which the
derived impl raises a `duplicate field` error, are outside the modelled
input space (the lookup takes the first binding). -/
def decodeVolume : Json → Except String Volume
  | .obj fs => do
    let migration_status ← optField asString "migration_status" fs
    let attachments ← reqField (asList decodeVolumeAttachment) "attachments" fs
    let links ← reqField (asList decodeLink) "links" fs
    let availability_zone ← optField asString "availability_zone" fs
    let host ← optField asString "os-vol-host-attr:host" fs
    let encrypted ← reqField asBool "encrypted" fs
    let encryption_key_id ← optField asString "encryption_key_id" fs
    let updated_at ← optField dateTimeDecodeJson "updated_at" fs
    let replication_status ← optField asString "replication_status" fs
    let snapshot_id ← optField asString "snapshot_id" fs
    let id ← reqField asString "id" fs
    let size ← reqField asU64 "size" fs
    let user_id ← reqField asString "user_id" fs
    let tenant_id ← optField asString "os-vol-tenant-attr:tenant_id" fs
    let metadata ← reqField asStringMap "metadata" fs
    let status ← reqField volumeStatusDecodeJson "status" fs
    let image_metadata ← optField asStringMap "volume_image_metadata" fs
    let description ← optField asString "description" fs
    let multi_attachable ← reqField asBool "multiattach" fs
    let source_volume_id ← optField asString "source_volid" fs
    let consistency_group_id ← optField asString "consistencygroup_id" fs
    let name_id ← optField asString "os-vol-mig-status-attr:name_id" fs
    let name ← reqField asString "name" fs
    let bootable ← reqField bool_from_bootable_string "bootable" fs
    let created_at ← reqField dateTimeDecodeJson "created_at" fs
    let volumes ← decodeVolumesField fs
    let volume_type ← reqField asString "volume_type" fs
    let volume_type_id ← optField asStringMap "volume_type_id" fs
    let group_id ← optField asString "group_id" fs
    let volumes_links ← optField (asList asString) "volumes_links" fs
    let provider_id ← optField asString "provider_id" fs
    let service_id ← optField asString "service_uuid" fs
    let shared_targets ← optField asBool "shared_targets" fs
    let cluster_name ← optField asString "cluster_name" fs
    let consumes_quota ← optField asBool "consumes_quota" fs
    let count ← optField asU64 "count" fs
    .ok (Volume.mk migration_status attachments links availability_zone
      host encrypted encryption_key_id updated_at replication_status
      snapshot_id id size user_id tenant_id metadata status
      image_metadata description multi_attachable source_volume_id
      consistency_group_id name_id name bootable created_at volumes
      volume_type volume_type_id group_id volumes_links provider_id
      service_id shared_targets cluster_name consumes_quota count)
  | _ => .error "invalid type: expected struct Volume"

/-- Resolve the `Option<Vec<Volume>>` field `volumes`: first binding of
the key wins, an absent key or a `null` value gives `None`, an array
decodes element-wise, anything else is a type error. -/
def decodeVolumesField : JsonFields → Except String (Option (List Volume))
  | .nil => .ok none
  | .cons k v tl =>
    if k = "volumes" then
      match v with
      | .null => .ok none
      | .arr xs => (decodeVolumeList xs).map some
      | _ => .error "invalid type: expected a sequence"
    else decodeVolumesField tl

/-- Element-wise decode of a JSON array of volumes. -/
def decodeVolumeList : JsonList → Except String (List Volume)
  | .nil => .ok []
  | .cons x xs => do
    let v ← decodeVolume x
    let rest ← decodeVolumeList xs
    .ok (v :: rest)

end

/-- Result shape helper: whether a decode succeeded. -/
def isOkE {ε α : Type} : Except ε α → Bool
  | .ok _ => true
  | .error _ => false

/-- Result shape helper: the error of a failed decode. -/
def errOf {ε α : Type} : Except ε α → Option ε
  | .ok _ => none
  | .error e => some e

instance {ε α : Type} [DecidableEq ε] [DecidableEq α] :
    DecidableEq (Except ε α) := fun a b =>
  match a, b with
  | .ok x, .ok y =>
    if h : x = y then .isTrue (by rw [h])
    else .isFalse (by intro c; cases c; exact h rfl)
  | .error x, .error y =>
    if h : x = y then .isTrue (by rw [h])
    else .isFalse (by intro c; cases c; exact h rfl)
  | .ok _, .error _ => .isFalse (by intro c; cases c)
  | .error _, .ok _ => .isFalse (by intro c; cases c)

/-! ## Envelopes and the create projection -/

/-- The `VolumeRoot` envelope: wire shape `volume` key around one
volume. -/
def decodeVolumeRoot : Json → Except String Volume
  | .obj fs => reqField decodeVolume "volume" fs
  | _ => .error "invalid type: expected struct VolumeRoot"

/-- The `VolumesRoot` envelope: wire shape `volumes` key around a list of
volumes. -/
def decodeVolumesRoot : Json → Except String (List Volume)
  | .obj fs => reqField (asList decodeVolume) "volumes" fs
  | _ => .error "invalid type: expected struct VolumesRoot"

/-- The `VolumeCreate` struct of `protocol.rs`, fields in declaration
order. -/
structure VolumeCreate where
  size : Nat
  availability_zone : Option String
  source_volume_id : Option String
  description : Option String
  snapshot_id : Option String
  backup_id : Option String
  name : String
  image_id : Option String
  volume_type : Option String
  metadata : Option (List (String × String))
  consistency_group_id : Option String
deriving DecidableEq

/-- The `VolumeCreate::new` constructor of `protocol.rs`. -/
def VolumeCreate.new (size : Nat) : VolumeCreate :=
  { size := size
    availability_zone := none
    source_volume_id := none
    description := none
    snapshot_id := none
    backup_id := none
    name := ""
    image_id := none
    volume_type := none
    metadata := none
    consistency_group_id := none }

/-- Serialization chunk of one optional string field under
`skip_serializing_if = Option.is_none`: absent gives no key at all. -/
def optStrField (k : String) (o : Option String) : List (String × Json) :=
  match o with
  | none => []
  | some v => [(k, .str v)]

/-- Serialization chunk of the optional metadata map. -/
def optMapField (k : String) (o : Option (List (String × String))) :
    List (String × Json) :=
  match o with
  | none => []
  | some m => [(k, jobj (m.map (fun p => (p.1, Json.str p.2))))]

/-- Derived `Serialize` for `VolumeCreate`: fields in declaration order,
serde renames applied (`source_volid`, `imageRef`), `None` fields omitted
entirely, `size` and `name` always present. -/
def encodeVolumeCreate (vc : VolumeCreate) : List (String × Json) :=
  [("size", Json.num vc.size)] ++
  optStrField "availability_zone" vc.availability_zone ++
  optStrField "source_volid" vc.source_volume_id ++
  optStrField "description" vc.description ++
  optStrField "snapshot_id" vc.snapshot_id ++
  optStrField "backup_id" vc.backup_id ++
  [("name", Json.str vc.name)] ++
  optStrField "imageRef" vc.image_id ++
  optStrField "volume_type" vc.volume_type ++
  optMapField "metadata" vc.metadata ++
  optStrField "consistency_group_id" vc.consistency_group_id

/-- Keys of the encoded `VolumeCreate` object, in output order. -/
def encodeVolumeCreateKeys (vc : VolumeCreate) : List String :=
  (encodeVolumeCreate vc).map Prod.fst

/-- The `VolumeCreateRoot` envelope around an encoded create request. -/
def encodeVolumeCreateRoot (vc : VolumeCreate) : Json :=
  jobj [("volume", jobj (encodeVolumeCreate vc))]

/-! ## Compact JSON rendering

Model of `serde_json::to_string` (no whitespace, fields in serialization
order).  String escaping covers the quote and backslash; the concrete
strings of the claims contain neither control characters nor non-ASCII
text. -/

/-- Escape one character of a JSON string literal. -/
def escChar (c : Char) : String :=
  if c = '"' then "\\\"" else if c = '\\' then "\\\\" else String.singleton c

/-- Render a JSON string literal. -/
def renderString (s : String) : String :=
  "\"" ++ String.join (s.data.map escChar) ++ "\""

mutual

/-- Render a JSON value compactly. -/
def renderJson : Json → String
  | .null => "null"
  | .bool true => "true"
  | .bool false => "false"
  | .num n => toString n
  | .str s => renderString s
  | .arr xs => "[" ++ renderItems xs ++ "]"
  | .obj fs => "\x7b" ++ renderFields fs ++ "\x7d"

/-- Render comma-separated array items. -/
def renderItems : JsonList → String
  | .nil => ""
  | .cons x .nil => renderJson x
  | .cons x tl => renderJson x ++ "," ++ renderItems tl

/-- Render comma-separated object fields. -/
def renderFields : JsonFields → String
  | .nil => ""
  | .cons k v .nil => renderString k ++ ":" ++ renderJson v
  | .cons k v tl => renderString k ++ ":" ++ renderJson v ++ "," ++ renderFields tl

end

/-- Render of a whole `VolumeCreate` body as `serde_json::to_string`
produces it. -/
def renderVolumeCreate (vc : VolumeCreate) : String :=
  renderJson (jobj (encodeVolumeCreate vc))

/-! ## Claims about the DateTime codec -/

/-- Probe string for the naive pattern: the fixed date-time
`2024-01-15T10:30:00` followed by a dot and `k` copies of the digit 1. -/
def naiveFracProbe (k : Nat) : String :=
  "2024-01-15T10:30:00." ++ String.mk (List.replicate k '1')

/-- The number whose decimal expansion is `k` ones. -/
def repOnes : Nat → Nat
  | 0 => 0
  | n + 1 => repOnes n * 10 + 1

/-- C1: the claim asserts that decoding `2024-01-15T10:30:00.123456`
yields the `WithoutOffset` shape (true) and that re-encoding reproduces
the input byte for byte (false on the code).  chrono's `%f` directive
parses the six digits as a literal count of 123456 nanoseconds and
formats the nanosecond count zero-padded to nine digits, so the value
re-encodes as `2024-01-15T10:30:00.000123456`, a different string. -/
theorem c1_naive_roundtrip_not_preserved :
    dateTimeDecodeStr "2024-01-15T10:30:00.123456" =
      .ok (.WithoutTz ⟨2024, 1, 15, 10, 30, 0, 123456⟩) ∧
    encodeDateTime (.WithoutTz ⟨2024, 1, 15, 10, 30, 0, 123456⟩) =
      "2024-01-15T10:30:00.000123456" ∧
    "2024-01-15T10:30:00.000123456" ≠ "2024-01-15T10:30:00.123456" := by
  refine ⟨by decide, by decide, by decide⟩

/-- C2 counterexample: the claim asserts that a no-offset timestamp
string with a number of fractional digits other than six is rejected,
but `2024-01-15T10:30:00.1`, with one fractional digit, decodes
successfully to the `WithoutOffset` shape. -/
theorem c2_counterexample_single_digit_accepted :
    dateTimeDecodeStr "2024-01-15T10:30:00.1" =
      .ok (.WithoutTz ⟨2024, 1, 15, 10, 30, 0, 1⟩) := by decide

/-- C2 (amended): the naive pattern accepts between one and nine
fractional digits — `%f` reads 1 to 9 digits as a literal nanosecond
count — while zero fractional digits and ten fractional digits are
rejected. -/
theorem c2_fraction_digit_flexibility :
    (∀ k, 1 ≤ k → k ≤ 9 →
      dateTimeDecodeStr (naiveFracProbe k) =
        .ok (.WithoutTz ⟨2024, 1, 15, 10, 30, 0, repOnes k⟩)) ∧
    dateTimeDecodeStr (naiveFracProbe 0) = .error "invalid date format" ∧
    dateTimeDecodeStr (naiveFracProbe 10) = .error "invalid date format" := by
  refine ⟨?_, by decide, by decide⟩
  intro k h1 h2
  interval_cases k <;> decide

/-- Witness for the amended C2 at three fractional digits. -/
theorem c2_fraction_digit_flexibility_witness :
    dateTimeDecodeStr (naiveFracProbe 3) =
      .ok (.WithoutTz ⟨2024, 1, 15, 10, 30, 0, repOnes 3⟩) :=
  c2_fraction_digit_flexibility.1 3 (by decide) (by decide)

/-- C3 counterexample: the claim asserts that the failure error carries
the original rejected string, but two different rejected strings produce
the identical error value, the fixed message `invalid date format`, so
the error cannot carry the input. -/
theorem c3_counterexample_error_does_not_carry_input :
    dateTimeDecodeStr "not-a-date" = .error "invalid date format" ∧
    dateTimeDecodeStr "definitely/not/a/date" =
      .error "invalid date format" := by
  refine ⟨by decide, by decide⟩

/-- C3 (amended): decode tries the two grammars in order with first match
winning — an RFC-3339 parse yields `WithTz`, otherwise a naive-pattern
parse yields `WithoutTz`, otherwise decode fails with the fixed message
`invalid date format` (which does not include the rejected string). -/
theorem c3_decode_cascade (s : String) :
    (∀ dt, parseRfc3339 s = some dt →
      dateTimeDecodeStr s = .ok (.WithTz dt)) ∧
    (parseRfc3339 s = none → ∀ d, parseNaive s = some d →
      dateTimeDecodeStr s = .ok (.WithoutTz d)) ∧
    (parseRfc3339 s = none → parseNaive s = none →
      dateTimeDecodeStr s = .error "invalid date format") := by
  refine ⟨?_, ?_, ?_⟩ <;> intros <;> simp [dateTimeDecodeStr, *]

/-- Witness for C3 at the rejected input `not-a-date`. -/
theorem c3_decode_cascade_witness :
    dateTimeDecodeStr "not-a-date" = .error "invalid date format" :=
  (c3_decode_cascade "not-a-date").2.2 (by decide) (by decide)

/-- C8: decoding `2024-01-15T10:30:00+02:00` yields the `WithOffset`
shape with the fixed offset of +02:00 (7200 seconds) stored as decoded,
and encoding the decoded value reproduces the identical RFC-3339 string —
the stored offset is used at encode time, not normalized to UTC. -/
theorem c8_offset_roundtrip :
    dateTimeDecodeStr "2024-01-15T10:30:00+02:00" =
      .ok (.WithTz ⟨⟨2024, 1, 15, 10, 30, 0, 0⟩, 7200⟩) ∧
    encodeDateTime (.WithTz ⟨⟨2024, 1, 15, 10, 30, 0, 0⟩, 7200⟩) =
      "2024-01-15T10:30:00+02:00" := by
  refine ⟨by decide, by decide⟩

/-! ## Claims about the enum codecs -/

/-- An exact lookup misses every table whose key column omits the probe. -/
theorem tableFind_eq_none {α : Type} (s : String)
    (l : List (String × α)) (h : s ∉ l.map Prod.fst) :
    tableFind s l = none := by
  induction l with
  | nil => rfl
  | cons p t ih =>
    obtain ⟨k, v⟩ := p
    simp only [List.map_cons, List.mem_cons] at h
    push_neg at h
    unfold tableFind
    rw [if_neg h.1]
    exact ih h.2

/-- C7: for every `VolumeStatus` variant, decoding its wire encoding
yields the variant back, and decoding any string outside the fixed wire
set fails — the match is exact, with no case-folding or trimming. -/
theorem c7_status_codec :
    (∀ v : VolumeStatus,
      volumeStatusDecode (volumeStatusEncode v) = .ok v) ∧
    (∀ s : String, s ∉ volumeStatusTable.map Prod.fst →
      isOkE (volumeStatusDecode s) = false) := by
  constructor
  · intro v; cases v <;> decide
  · intro s hs
    unfold volumeStatusDecode
    rw [tableFind_eq_none s volumeStatusTable hs]
    rfl

/-- Witness for C7 at variant `InUse` and the case-folded probe
`CREATING`, which is outside the exact wire set. -/
theorem c7_status_codec_witness :
    volumeStatusDecode (volumeStatusEncode .InUse) = .ok .InUse ∧
    isOkE (volumeStatusDecode "CREATING") = false :=
  ⟨c7_status_codec.1 .InUse, c7_status_codec.2 "CREATING" (by decide)⟩

/-- C9: `VolumeSortKey::default()` is the `CreatedAt` variant, and its
wire encoding is the string `created_at`. -/
theorem c9_sortkey_default :
    VolumeSortKey.default = VolumeSortKey.CreatedAt ∧
    volumeSortKeyEncode VolumeSortKey.default = "created_at" :=
  ⟨rfl, rfl⟩

/-! ## Claims about the create projection -/

/-- Key membership in an optional string chunk. -/
theorem mem_optStrField_keys (k' k : String) (o : Option String) :
    (∃ x, (k', x) ∈ optStrField k o) ↔ k' = k ∧ o.isSome = true := by
  cases o <;> simp [optStrField]

/-- Key membership in the optional metadata chunk. -/
theorem mem_optMapField_keys (k' k : String)
    (o : Option (List (String × String))) :
    (∃ x, (k', x) ∈ optMapField k o) ↔ k' = k ∧ o.isSome = true := by
  cases o <;> simp [optMapField]

/-- C4: the encoded `VolumeCreate` object contains a key for an optional
field iff that field is `Some` (absent fields are omitted, never `null`),
`name` and `size` are always present, and the all-`None` value with
`size = 10`, `name = ""` renders to exactly the two-key object. -/
theorem c4_create_encode_presence (vc : VolumeCreate) :
    ("availability_zone" ∈ encodeVolumeCreateKeys vc ↔
      vc.availability_zone.isSome = true) ∧
    ("source_volid" ∈ encodeVolumeCreateKeys vc ↔
      vc.source_volume_id.isSome = true) ∧
    ("description" ∈ encodeVolumeCreateKeys vc ↔
      vc.description.isSome = true) ∧
    ("snapshot_id" ∈ encodeVolumeCreateKeys vc ↔
      vc.snapshot_id.isSome = true) ∧
    ("backup_id" ∈ encodeVolumeCreateKeys vc ↔
      vc.backup_id.isSome = true) ∧
    ("imageRef" ∈ encodeVolumeCreateKeys vc ↔
      vc.image_id.isSome = true) ∧
    ("volume_type" ∈ encodeVolumeCreateKeys vc ↔
      vc.volume_type.isSome = true) ∧
    ("metadata" ∈ encodeVolumeCreateKeys vc ↔
      vc.metadata.isSome = true) ∧
    ("consistency_group_id" ∈ encodeVolumeCreateKeys vc ↔
      vc.consistency_group_id.isSome = true) ∧
    "name" ∈ encodeVolumeCreateKeys vc ∧
    "size" ∈ encodeVolumeCreateKeys vc ∧
    renderVolumeCreate
      ⟨10, none, none, none, none, none, "", none, none, none, none⟩ =
      "\x7b\"size\":10,\"name\":\"\"\x7d" := by
  refine ⟨?_, ?_, ?_, ?_, ?_, ?_, ?_, ?_, ?_, ?_, ?_, by decide⟩ <;>
    simp [encodeVolumeCreateKeys, encodeVolumeCreate,
      mem_optStrField_keys, mem_optMapField_keys]

/-- C10: `VolumeCreate::new(s)` has size `s`, empty name, all nine
optional fields `None`, and encodes to an object with exactly the keys
`size` and `name`. -/
theorem c10_new_defaults (s : Nat) :
    (VolumeCreate.new s).size = s ∧
    (VolumeCreate.new s).name = "" ∧
    (VolumeCreate.new s).availability_zone = none ∧
    (VolumeCreate.new s).source_volume_id = none ∧
    (VolumeCreate.new s).description = none ∧
    (VolumeCreate.new s).snapshot_id = none ∧
    (VolumeCreate.new s).backup_id = none ∧
    (VolumeCreate.new s).image_id = none ∧
    (VolumeCreate.new s).volume_type = none ∧
    (VolumeCreate.new s).metadata = none ∧
    (VolumeCreate.new s).consistency_group_id = none ∧
    encodeVolumeCreateKeys (VolumeCreate.new s) = ["size", "name"] :=
  ⟨rfl, rfl, rfl, rfl, rfl, rfl, rfl, rfl, rfl, rfl, rfl, rfl⟩

/-! ## Claims about the Volume decode path -/

/-- A volume document with every required field present and well-formed:
native booleans for `encrypted` and `multiattach`, the string literal
`true` for `bootable`, a valid status and naive-format `created_at`. -/
def sampleVolumeFields : List (String × Json) :=
  [("attachments", jarr []), ("links", jarr []),
   ("encrypted", .bool true), ("id", .str "f0e45a1f"),
   ("size", .num 10), ("user_id", .str "user-1"),
   ("metadata", jobj []), ("status", .str "in-use"),
   ("multiattach", .bool false), ("name", .str "vol-1"),
   ("bootable", .str "true"),
   ("created_at", .str "2024-01-15T10:30:00.000000"),
   ("volume_type", .str "standard")]

/-- Replace the value bound to a key of a document. -/
def setKey (k : String) (v : Json) (l : List (String × Json)) :
    List (String × Json) :=
  l.map (fun p => if p.1 = k then (p.1, v) else p)

/-- Drop every binding of a key from a document. -/
def removeKey (k : String) (l : List (String × Json)) :
    List (String × Json) :=
  l.filter (fun p => p.1 != k)

/-- The required (non-`Option`) fields of `Volume`, by wire name, in
declaration order. -/
def requiredVolumeKeys : List String :=
  ["attachments", "links", "encrypted", "id", "size", "user_id",
   "metadata", "status", "multiattach", "name", "bootable",
   "created_at", "volume_type"]

/-- Reduction of an `Except` bind whose first step succeeded. -/
theorem except_ok_bind {α β : Type} (a : α) (f : α → Except String β) :
    (Except.ok a >>= f) = f a := rfl

/-- Inversion of a successful `Except` bind. -/
theorem except_bind_ok {α β : Type} {x : Except String α}
    {f : α → Except String β} {b : β} (h : x >>= f = .ok b) :
    ∃ a, x = .ok a ∧ f a = .ok b := by
  cases x with
  | ok a => exact ⟨a, rfl, h⟩
  | error e => simp [Bind.bind, Except.bind] at h

/-- A successful required-field decode implies the key is present. -/
theorem reqField_ok_hasKey {α : Type} {dec : Json → Except String α}
    {k : String} {fs : JsonFields} {a : α}
    (h : reqField dec k fs = .ok a) : fs.hasKey k = true := by
  unfold reqField at h
  cases hf : fs.find k with
  | none => rw [hf] at h; simp at h
  | some v => simp [JsonFields.hasKey, hf]

/-- A successful `Volume` decode implies every required wire key is
present in the document. -/
theorem decodeVolume_ok_required {fs : JsonFields} {v : Volume}
    (h : decodeVolume (.obj fs) = .ok v) :
    ∀ k ∈ requiredVolumeKeys, fs.hasKey k = true := by
  rw [decodeVolume] at h
  obtain ⟨_, _, h⟩ := except_bind_ok h
  obtain ⟨_, hAttachments, h⟩ := except_bind_ok h
  obtain ⟨_, hLinks, h⟩ := except_bind_ok h
  obtain ⟨_, _, h⟩ := except_bind_ok h
  obtain ⟨_, _, h⟩ := except_bind_ok h
  obtain ⟨_, hEncrypted, h⟩ := except_bind_ok h
  obtain ⟨_, _, h⟩ := except_bind_ok h
  obtain ⟨_, _, h⟩ := except_bind_ok h
  obtain ⟨_, _, h⟩ := except_bind_ok h
  obtain ⟨_, _, h⟩ := except_bind_ok h
  obtain ⟨_, hId, h⟩ := except_bind_ok h
  obtain ⟨_, hSize, h⟩ := except_bind_ok h
  obtain ⟨_, hUser, h⟩ := except_bind_ok h
  obtain ⟨_, _, h⟩ := except_bind_ok h
  obtain ⟨_, hMetadata, h⟩ := except_bind_ok h
  obtain ⟨_, hStatus, h⟩ := except_bind_ok h
  obtain ⟨_, _, h⟩ := except_bind_ok h
  obtain ⟨_, _, h⟩ := except_bind_ok h
  obtain ⟨_, hMulti, h⟩ := except_bind_ok h
  obtain ⟨_, _, h⟩ := except_bind_ok h
  obtain ⟨_, _, h⟩ := except_bind_ok h
  obtain ⟨_, _, h⟩ := except_bind_ok h
  obtain ⟨_, hName, h⟩ := except_bind_ok h
  obtain ⟨_, hBootable, h⟩ := except_bind_ok h
  obtain ⟨_, hCreated, h⟩ := except_bind_ok h
  obtain ⟨_, _, h⟩ := except_bind_ok h
  obtain ⟨_, hVolType, h⟩ := except_bind_ok h
  intro k hk
  simp only [requiredVolumeKeys, List.mem_cons, List.not_mem_nil,
    or_false] at hk
  rcases hk with rfl|rfl|rfl|rfl|rfl|rfl|rfl|rfl|rfl|rfl|rfl|rfl|rfl
  · exact reqField_ok_hasKey hAttachments
  · exact reqField_ok_hasKey hLinks
  · exact reqField_ok_hasKey hEncrypted
  · exact reqField_ok_hasKey hId
  · exact reqField_ok_hasKey hSize
  · exact reqField_ok_hasKey hUser
  · exact reqField_ok_hasKey hMetadata
  · exact reqField_ok_hasKey hStatus
  · exact reqField_ok_hasKey hMulti
  · exact reqField_ok_hasKey hName
  · exact reqField_ok_hasKey hBootable
  · exact reqField_ok_hasKey hCreated
  · exact reqField_ok_hasKey hVolType

/-- C5: Volume decode is all-or-nothing.  For every object missing any
required wire key the decode produces an error and no `Volume` value;
dropping `id` from an otherwise well-formed document fails with exactly
`missing field id`; and a failing sub-decode (status, bootable,
created_at, or a nested volume) likewise fails the whole decode. -/
theorem c5_missing_required_field_fails :
    (∀ fs : JsonFields, ∀ k ∈ requiredVolumeKeys,
      fs.hasKey k = false → isOkE (decodeVolume (.obj fs)) = false) ∧
    errOf (decodeVolume (jobj (removeKey "id" sampleVolumeFields))) =
      some "missing field `id`" ∧
    isOkE (decodeVolume
      (jobj (setKey "status" (.str "bogus") sampleVolumeFields))) =
      false ∧
    isOkE (decodeVolume
      (jobj (setKey "bootable" (.str "yes") sampleVolumeFields))) =
      false ∧
    isOkE (decodeVolume
      (jobj (setKey "created_at" (.str "not-a-date")
        sampleVolumeFields))) = false ∧
    isOkE (decodeVolume
      (jobj (("volumes", jarr [jobj (removeKey "id" sampleVolumeFields)])
        :: sampleVolumeFields))) = false := by
  refine ⟨?_, by decide, by decide, by decide, by decide, by decide⟩
  intro fs k hk hkey
  cases hE : decodeVolume (.obj fs) with
  | ok v => exact absurd (decodeVolume_ok_required hE k hk) (by simp [hkey])
  | error e => rfl

/-- Witness for C5 at a concrete document missing `id`. -/
theorem c5_missing_required_field_fails_witness :
    isOkE (decodeVolume
      (.obj (jfields (removeKey "id" sampleVolumeFields)))) = false :=
  c5_missing_required_field_fails.1
    (jfields (removeKey "id" sampleVolumeFields)) "id"
    (by decide) (by decide)

/-- C6: the flexible boolean codec accepts exactly the string literals
`true` and `false`, failing on every other string with an error carrying
the offending literal (shown for `True`, `TRUE`, `1` and the empty
string); within Volume decode it applies only to `bootable` — a native
JSON boolean there is rejected — while `encrypted` and `multiattach`
require native JSON booleans. -/
theorem c6_bootable_codec :
    bool_from_bootable_string (.str "true") = .ok true ∧
    bool_from_bootable_string (.str "false") = .ok false ∧
    (∀ s : String, s ≠ "true" → s ≠ "false" →
      bool_from_bootable_string (.str s) =
        .error ("invalid value: string \"" ++ s ++
          "\", expected true or false")) ∧
    errOf (bool_from_bootable_string (.str "True")) =
      some "invalid value: string \"True\", expected true or false" ∧
    errOf (bool_from_bootable_string (.str "TRUE")) =
      some "invalid value: string \"TRUE\", expected true or false" ∧
    errOf (bool_from_bootable_string (.str "1")) =
      some "invalid value: string \"1\", expected true or false" ∧
    errOf (bool_from_bootable_string (.str "")) =
      some "invalid value: string \"\", expected true or false" ∧
    isOkE (decodeVolume (jobj sampleVolumeFields)) = true ∧
    isOkE (decodeVolume
      (jobj (setKey "bootable" (.bool true) sampleVolumeFields))) =
      false ∧
    isOkE (decodeVolume
      (jobj (setKey "encrypted" (.str "true") sampleVolumeFields))) =
      false := by
  refine ⟨by decide, by decide, ?_, by decide, by decide, by decide,
    by decide, by decide, by decide, by decide⟩
  intro s h1 h2
  simp only [bool_from_bootable_string, asString, except_ok_bind]

/-- Witness for C6 at the case-folded literal `True`. -/
theorem c6_bootable_codec_witness :
    bool_from_bootable_string (.str "True") =
      .error "invalid value: string \"True\", expected true or false" :=
  c6_bootable_codec.2.2.1 "True" (by decide) (by decide)

end BlockStorage
